import Mathlib

/-!
Verification development for the send-side stream manager of an HTTP/2
connection (`src/proto/streams/send.rs`).

The `Send` manager itself is embedded directly from the source file.  Its
collaborators (the flow-control window, the stream-state object, the counts
tracker, the prioritize write scheduler, the stream-id type) live outside the
source tree, so they are modelled from the specification's interface
descriptions (§4.1, §6, §9 of the design document); each such definition is
marked `Modelled from the spec:` in its doc comment.

Observable calls into the prioritize collaborator are recorded as an ordered
event trace, so that ordering requirements (for example clear-queue before
queueing RST_STREAM before reassigning capacity) are provable.
-/

namespace H2Send

/-- Protocol error reasons (`frame::Reason`); only the variants used by
`send.rs` are modelled. -/
inductive Reason
  | ProtocolError
  | FlowControlError
  | Cancel
deriving DecidableEq, Repr

/-- User-facing errors (`codec::UserError`); only the variants used by
`send.rs` are modelled. -/
inductive UserError
  | Rejected
  | UnexpectedFrameType
deriving DecidableEq, Repr

/-- Connection-level receive errors (`codec::RecvError`); `send.rs` only
constructs the `Connection` variant, but stream-scoped errors exist in the
taxonomy. -/
inductive RecvError
  | Connection (r : Reason)
  | StreamErr (id : Nat) (r : Reason)
deriving DecidableEq, Repr

/-- The protocol's maximum flow-control window size, 2^31 - 1. -/
def maxWindowSize : Int := 2 ^ 31 - 1

/-- Modelled from the spec: the flow-control window (§4.1) is a signed credit
balance; `flow_control.rs` is not part of the source tree.  `available` may be
negative. -/
structure FlowControl where
  window : Int
deriving DecidableEq, Repr

/-- Modelled from the spec: `available() -> integer` (may be negative). -/
def FlowControl.available (f : FlowControl) : Int :=
  f.window

/-- Modelled from the spec: `claim_capacity(amount)` removes `amount` from the
balance. -/
def FlowControl.claim_capacity (f : FlowControl) (amt : Int) : FlowControl :=
  ⟨f.window - amt⟩

/-- Modelled from the spec: `dec_window(amount)` decreases the balance by
`amount`, allowed to go negative. -/
def FlowControl.dec_window (f : FlowControl) (amt : Int) : FlowControl :=
  ⟨f.window - amt⟩

/-- Modelled from the spec: the send half-state of a stream, a tagged variant
Idle/Open/HalfClosedLocal/Closed/Reset (§9); `state.rs` is not part of the
source tree. -/
inductive StreamState
  | Idle
  | Open
  | HalfClosedLocal
  | Closed
  | ResetSt (reason : Reason)
deriving DecidableEq, Repr

/-- Modelled from the spec: `is_reset()` of the stream-state collaborator. -/
def StreamState.is_reset : StreamState → Bool
  | .ResetSt _ => true
  | _ => false

/-- Modelled from the spec: `is_closed()` of the stream-state collaborator. -/
def StreamState.is_closed : StreamState → Bool
  | .Closed => true
  | _ => false

/-- Modelled from the spec: `is_send_streaming()` — the stream is actively
send-streaming while its send half is open. -/
def StreamState.is_send_streaming : StreamState → Bool
  | .Open => true
  | _ => false

/-- Modelled from the spec: `set_reset(reason)` marks the stream reset. -/
def StreamState.set_reset (_s : StreamState) (r : Reason) : StreamState :=
  .ResetSt r

/-- Modelled from the spec: `send_close()` transitions the send half to
closed. -/
def StreamState.send_close (_s : StreamState) : StreamState :=
  .HalfClosedLocal

/-- Frames, as far as `send.rs` distinguishes them.  Trailers are a `Headers`
frame. -/
inductive Frame
  | Headers (endStream : Bool)
  | Data (len : Nat)
  | Reset (id : Nat) (reason : Reason)
deriving DecidableEq, Repr

/-- Per-stream send state, the fields of the stream record that `send.rs`
reads and writes (`id`, `state`, `send_flow`, `buffered_send_data`,
`send_capacity_inc`, `pending_send`). -/
structure Stream where
  id : Nat
  state : StreamState
  send_flow : FlowControl
  buffered_send_data : Nat
  send_capacity_inc : Bool
  pending_send : List Frame
deriving DecidableEq, Repr

/-- Observable effects on collaborators, recorded in call order. -/
inductive Event
  | ClearQueue (id : Nat)
  | ClaimCapacity (id : Nat) (amt : Int)
  | QueueFrame (f : Frame)
  | AssignConnCapacity (amt : Int)
  | ReserveCapacity (id : Nat) (amt : Int)
deriving DecidableEq, Repr

/-- Modelled from the spec: `Prioritize::queue_frame(frame, stream)` appends
the frame to the stream's pending-send queue (`prioritize.rs` is not part of
the source tree). -/
def Prioritize.queue_frame (f : Frame) (s : Stream) : Stream × List Event :=
  ({ s with pending_send := s.pending_send ++ [f] }, [.QueueFrame f])

/-- Modelled from the spec: `Prioritize::clear_queue(stream)` discards the
stream's queued outbound frames. -/
def Prioritize.clear_queue (s : Stream) : Stream × List Event :=
  ({ s with pending_send := [] }, [.ClearQueue s.id])

/-- Modelled from the spec: `Prioritize::assign_connection_capacity(amount,
stream)` reassigns reclaimed credit to the connection pool. -/
def Prioritize.assign_connection_capacity (amt : Int) (s : Stream) :
    Stream × List Event :=
  (s, [.AssignConnCapacity amt])

/-- Modelled from the spec: `Prioritize::reserve_capacity(amount, stream)`
requests (or, with 0, releases) send capacity for the stream. -/
def Prioritize.reserve_capacity (amt : Int) (s : Stream) : Stream × List Event :=
  (s, [.ReserveCapacity s.id amt])

/-- Modelled from the spec: `Prioritize::recv_stream_window_update(sz,
stream)` increments the stream's send window by `sz`, failing with a
flow-control error if the window would pass the protocol maximum (§4.1, §4.6). -/
def Prioritize.recv_stream_window_update (sz : Int) (s : Stream) :
    Except Reason Stream :=
  if s.send_flow.window + sz > maxWindowSize then
    .error .FlowControlError
  else
    .ok { s with send_flow := ⟨s.send_flow.window + sz⟩ }

/-- Modelled from the spec: the counts collaborator tracks the concurrent
send-stream budget (`counts.rs` is not part of the source tree). -/
structure Counts where
  num_send_streams : Nat
  max_send_streams : Nat
deriving DecidableEq, Repr

/-- Modelled from the spec: `can_inc_num_send_streams()` — whether opening one
more locally initiated stream stays within the budget. -/
def Counts.can_inc_num_send_streams (c : Counts) : Bool :=
  c.num_send_streams < c.max_send_streams

/-- Modelled from the spec: `inc_num_send_streams()`. -/
def Counts.inc_num_send_streams (c : Counts) : Counts :=
  { c with num_send_streams := c.num_send_streams + 1 }

/-- Modelled from the spec: `StreamId::increment` advances by the protocol's
id step of 2, preserving parity (the `StreamId` type is not part of the source
tree). -/
def StreamId.increment (id : Nat) : Nat :=
  id + 2

/-- The configuration field consumed by `Send::new`. -/
structure Config where
  init_local_window_sz : Nat
deriving DecidableEq, Repr

/-- The `Send` manager state (`send.rs`).  The peer-role predicate
`P::is_server()`, a type parameter in the source, is carried as a field. -/
structure Send where
  is_server : Bool
  next_stream_id : Nat
  init_window_sz : Nat
deriving DecidableEq, Repr

/-- Source `Send::new`: first stream id is 2 for a server role, 1 for a client role;
`init_window_sz` comes from configuration. -/
def Send.new (is_server : Bool) (config : Config) : Send :=
  { is_server := is_server
    next_stream_id := if is_server then 2 else 1
    init_window_sz := config.init_local_window_sz }

/-- Source `Send::ensure_can_open`: servers cannot open streams this way. -/
def Send.ensure_can_open (s : Send) : Except UserError Unit :=
  if s.is_server then .error .UnexpectedFrameType else .ok ()

/-- Source `Send::open`: role check, then budget check; on success returns the
current `next_stream_id`, advances it, and increments the local-stream
counter. -/
def Send.«open» (s : Send) (counts : Counts) :
    Except UserError Nat × Send × Counts :=
  match s.ensure_can_open with
  | .error e => (.error e, s, counts)
  | .ok () =>
    if ¬ counts.can_inc_num_send_streams then
      (.error .Rejected, s, counts)
    else
      let ret := s.next_stream_id
      (.ok ret,
        { s with next_stream_id := StreamId.increment s.next_stream_id },
        counts.inc_num_send_streams)

/-- Source `Send::capacity`: available minus buffered, clamped at 0. -/
def Send.capacity (_self : Send) (stream : Stream) : Int :=
  let available := stream.send_flow.available
  let buffered : Int := stream.buffered_send_data
  if available ≤ buffered then 0 else available - buffered

/-- Source `Send::send_reset`: guarded, then set-reset, clear queue, claim remaining
credit, queue RST_STREAM, reassign the credit to the connection. -/
def Send.send_reset (_self : Send) (reason : Reason) (stream : Stream) :
    Stream × List Event :=
  if stream.state.is_reset then
    (stream, [])
  else if stream.state.is_closed && stream.pending_send.isEmpty then
    (stream, [])
  else
    let stream1 := { stream with state := stream.state.set_reset reason }
    let (stream2, ev1) := Prioritize.clear_queue stream1
    let available := stream2.send_flow.available
    let stream3 := { stream2 with send_flow := stream2.send_flow.claim_capacity available }
    let ev2 := [Event.ClaimCapacity stream3.id available]
    let frame := Frame.Reset stream3.id reason
    let (stream4, ev3) := Prioritize.queue_frame frame stream3
    let (stream5, ev4) := Prioritize.assign_connection_capacity available stream4
    (stream5, ev1 ++ ev2 ++ ev3 ++ ev4)

/-- Source `Send::send_trailers`: legal only while send-streaming; on success close
the send half, queue the frame, release reserved capacity (reserve 0). -/
def Send.send_trailers (_self : Send) (frame : Frame) (stream : Stream) :
    Except UserError Unit × Stream × List Event :=
  if ¬ stream.state.is_send_streaming then
    (.error .UnexpectedFrameType, stream, [])
  else
    let stream1 := { stream with state := stream.state.send_close }
    let (stream2, ev1) := Prioritize.queue_frame frame stream1
    let (stream3, ev2) := Prioritize.reserve_capacity 0 stream2
    (.ok (), stream3, ev1 ++ ev2)

/-- The three-way poll result of `Send::poll_capacity`. -/
inductive PollCapacity
  | NotReady
  | ReadyNone
  | ReadySome (w : Int)
deriving DecidableEq, Repr

/-- Source `Send::poll_capacity`: `Ready(None)` once no longer send-streaming;
`NotReady` while the dirty flag is unset; otherwise clear the flag and return
the computed capacity. -/
def Send.poll_capacity (self : Send) (stream : Stream) :
    PollCapacity × Stream :=
  if ¬ stream.state.is_send_streaming then
    (.ReadyNone, stream)
  else if ¬ stream.send_capacity_inc then
    (.NotReady, stream)
  else
    let stream1 := { stream with send_capacity_inc := false }
    (.ReadySome (self.capacity stream1), stream1)

/-- Source `Send::recv_stream_window_update`: delegate to the collaborator; on error,
reset the stream with `FlowControlError` before returning the error. -/
def Send.recv_stream_window_update (self : Send) (sz : Int) (stream : Stream) :
    Except Reason Unit × Stream × List Event :=
  match Prioritize.recv_stream_window_update sz stream with
  | .error e =>
    let (stream1, evs) := self.send_reset .FlowControlError stream
    (.error e, stream1, evs)
  | .ok stream1 => (.ok (), stream1, [])

/-- The store sweep `Store::for_each` (modelled from the spec: iterate all tracked streams,
short-circuit on the first error; mutations made before the failure persist). -/
def Store.for_each (f : Stream → Stream × List Event × Option RecvError) :
    List Stream → List Stream × List Event × Option RecvError
  | [] => ([], [], none)
  | s :: rest =>
    let r := f s
    match r.2.2 with
    | some e => (r.1 :: rest, r.2.1, some e)
    | none =>
      let rest' := Store.for_each f rest
      (r.1 :: rest'.1, r.2.1 ++ rest'.2.1, rest'.2.2)

/-- Source `Send::apply_remote_settings`: if the settings frame carries
`SETTINGS_INITIAL_WINDOW_SIZE`, record old and new, update unconditionally,
then sweep the store: shrink decrements each stream's send window, grow runs
the stream-window-update path with the increment. -/
def Send.apply_remote_settings (self : Send) (settings : Option Nat)
    (store : List Stream) :
    Send × List Stream × List Event × Option RecvError :=
  match settings with
  | none => (self, store, [], none)
  | some val =>
    let old_val := self.init_window_sz
    let self1 := { self with init_window_sz := val }
    if val < old_val then
      let dec : Nat := old_val - val
      let r := Store.for_each
        (fun s =>
          ({ s with send_flow := s.send_flow.dec_window (dec : Int) }, [], none))
        store
      (self1, r)
    else if val > old_val then
      let inc : Nat := val - old_val
      let r := Store.for_each
        (fun s =>
          let u := self1.recv_stream_window_update (inc : Int) s
          match u.1 with
          | .error e => (u.2.1, u.2.2, some (RecvError.Connection e))
          | .ok _ => (u.2.1, u.2.2, none))
        store
      (self1, r)
    else
      (self1, store, [], none)

/-- Source `Send::ensure_not_idle`: protocol error for any id not below
`next_stream_id`. -/
def Send.ensure_not_idle (s : Send) (id : Nat) : Except Reason Unit :=
  if id ≥ s.next_stream_id then .error .ProtocolError else .ok ()

/-- Run a sequence of `open` calls on one manager; the counts state seen by
each call is supplied externally (other parts of the connection may free or
consume slots between calls). -/
def Send.runOpens (s : Send) : List Counts → List (Option Nat) × Send
  | [] => ([], s)
  | c :: cs =>
    let r := s.«open» c
    let rest := r.2.1.runOpens cs
    match r.1 with
    | .ok id => (some id :: rest.1, rest.2)
    | .error _ => (none :: rest.1, rest.2)

/-- The ids produced by the successful calls in a sequence of `open`s. -/
def opensIds (s : Send) (cs : List Counts) : List Nat :=
  (s.runOpens cs).1.filterMap (fun x => x)

/-- A concrete in-flight stream for the concrete instantiations: actively
send-streaming, window 100, 40 bytes buffered, one queued DATA frame. -/
def sampleStream : Stream :=
  { id := 1, state := .Open, send_flow := ⟨100⟩, buffered_send_data := 40,
    send_capacity_inc := true, pending_send := [.Data 10] }

/-- A concrete stream whose send window sits at the protocol maximum, so any
further window increment is a flow-control violation. -/
def overflowStream : Stream :=
  { id := 5, state := .Open, send_flow := ⟨maxWindowSize⟩,
    buffered_send_data := 0, send_capacity_inc := false,
    pending_send := [.Data 3] }

/-! ## Helper lemmas -/

/-- A call to `open` either fails leaving manager and counts untouched, or succeeds
returning the pre-call `next_stream_id`, advancing it by 2 and bumping the
counter. -/
theorem open_cases (s : Send) (c : Counts) :
    (∃ e, s.«open» c = (.error e, s, c))
    ∨ s.«open» c = (.ok s.next_stream_id,
        { s with next_stream_id := s.next_stream_id + 2 },
        c.inc_num_send_streams) := by
  unfold Send.«open» Send.ensure_can_open StreamId.increment
  by_cases hs : s.is_server
  · exact Or.inl ⟨.UnexpectedFrameType, by simp [hs]⟩
  · by_cases hc : c.can_inc_num_send_streams
    · exact Or.inr (by simp [hs, hc])
    · exact Or.inl ⟨.Rejected, by simp [hs, hc]⟩

/-- The successful ids of a run of `open`s form the arithmetic progression of
step 2 starting at the initial `next_stream_id`, and `next_stream_id` advances
by 2 per success. -/
theorem runOpens_spec (cs : List Counts) (s : Send) :
    opensIds s cs = List.range' s.next_stream_id (opensIds s cs).length 2
    ∧ (s.runOpens cs).2.next_stream_id
        = s.next_stream_id + 2 * (opensIds s cs).length := by
  induction cs generalizing s with
  | nil => simp [Send.runOpens, opensIds]
  | cons c cs ih =>
    rcases open_cases s c with ⟨e, he⟩ | he
    · have hrun : s.runOpens (c :: cs)
          = (none :: (s.runOpens cs).1, (s.runOpens cs).2) := by
        simp [Send.runOpens, he]
      have hids : opensIds s (c :: cs) = opensIds s cs := by
        simp [opensIds, hrun]
      rw [hids, hrun]
      exact ih s
    · have hrun : s.runOpens (c :: cs)
          = (some s.next_stream_id
              :: (({ s with next_stream_id := s.next_stream_id + 2 }).runOpens cs).1,
             (({ s with next_stream_id := s.next_stream_id + 2 }).runOpens cs).2) := by
        simp [Send.runOpens, he]
      have hids : opensIds s (c :: cs)
          = s.next_stream_id
              :: opensIds { s with next_stream_id := s.next_stream_id + 2 } cs := by
        simp [opensIds, hrun]
      obtain ⟨ih1, ih2⟩ := ih { s with next_stream_id := s.next_stream_id + 2 }
      constructor
      · rw [hids, List.length_cons, List.range'_succ]
        exact congrArg _ ih1
      · have h2' : (s.runOpens (c :: cs)).2.next_stream_id
            = (s.next_stream_id + 2)
              + 2 * (opensIds
                  { s with next_stream_id := s.next_stream_id + 2 } cs).length := by
          rw [hrun]
          simpa using ih2
        rw [h2', hids, List.length_cons]
        omega

/-! ## Claim theorems -/

/-- C1: for every stream, `capacity` equals `max 0 (available - buffered)`:
available minus buffered when available exceeds buffered, else 0; it is never
negative even when the underlying window is negative. -/
theorem capacity_max_available_sub_buffered (self : Send) (stream : Stream) :
    self.capacity stream
      = max 0 (stream.send_flow.available - (stream.buffered_send_data : Int))
    ∧ 0 ≤ self.capacity stream := by
  simp only [Send.capacity, FlowControl.available]
  constructor
  · rcases le_or_lt stream.send_flow.window (stream.buffered_send_data : Int)
        with h | h
    · rw [if_pos h]
      exact (max_eq_left (by omega)).symm
    · rw [if_neg (not_le.2 h)]
      exact (max_eq_right (by omega)).symm
  · split
    · omega
    · omega

/-- C4: `open` fails with `UnexpectedFrameType` for a server role and with
`Rejected` when the budget is exhausted; every failure leaves
`next_stream_id` and the counts untouched; success returns the pre-call
`next_stream_id`. -/
theorem open_failure_modes_state_untouched (s : Send) (c : Counts) :
    (s.is_server = true → (s.«open» c).1 = .error .UnexpectedFrameType)
    ∧ (s.is_server = false → c.can_inc_num_send_streams = false →
        (s.«open» c).1 = .error .Rejected)
    ∧ (∀ e, (s.«open» c).1 = .error e →
        (s.«open» c).2.1 = s ∧ (s.«open» c).2.2 = c)
    ∧ (∀ i, (s.«open» c).1 = .ok i → i = s.next_stream_id) := by
  unfold Send.«open» Send.ensure_can_open
  by_cases hs : s.is_server
  · simp [hs]
  · by_cases hc : c.can_inc_num_send_streams
    · simp [hs, hc]
    · simp [hs, hc]

/-- C4 witness: a server-role manager's `open` fails with
`UnexpectedFrameType` leaving the state untouched. -/
theorem open_failure_modes_state_untouched_witness :
    ((Send.new true ⟨65535⟩).«open» ⟨0, 5⟩).1 = .error .UnexpectedFrameType
    ∧ ((Send.new true ⟨65535⟩).«open» ⟨0, 5⟩).2.1 = Send.new true ⟨65535⟩ :=
  ⟨(open_failure_modes_state_untouched (Send.new true ⟨65535⟩) ⟨0, 5⟩).1 rfl,
    ((open_failure_modes_state_untouched (Send.new true ⟨65535⟩) ⟨0, 5⟩).2.2.1
      .UnexpectedFrameType rfl).1⟩

/-- C9: `ensure_not_idle` fails with `ProtocolError` exactly when the id is at
least `next_stream_id`, succeeds exactly when the id is below it, and in
particular succeeds on every id previously issued by `open` from a fresh
client-role manager. -/
theorem ensure_not_idle_iff_ge_next (s : Send) (n : Nat) (cfg : Config)
    (cs : List Counts) :
    (s.ensure_not_idle n = .error .ProtocolError ↔ s.next_stream_id ≤ n)
    ∧ (s.ensure_not_idle n = .ok () ↔ n < s.next_stream_id)
    ∧ (∀ i ∈ opensIds (Send.new false cfg) cs,
        ((Send.new false cfg).runOpens cs).2.ensure_not_idle i = .ok ()) := by
  refine ⟨?_, ?_, ?_⟩
  · unfold Send.ensure_not_idle
    split
    · simp; omega
    · simp; omega
  · unfold Send.ensure_not_idle
    split
    · simp; omega
    · simp; omega
  · intro i hi
    obtain ⟨h1, h2⟩ := runOpens_spec cs (Send.new false cfg)
    rw [h1] at hi
    obtain ⟨j, hj, rfl⟩ := List.mem_range'.1 hi
    have hnext : ((Send.new false cfg).runOpens cs).2.next_stream_id
        = 1 + 2 * (opensIds (Send.new false cfg) cs).length := by
      simpa [Send.new] using h2
    unfold Send.ensure_not_idle
    rw [hnext]
    have hstart : (Send.new false cfg).next_stream_id = 1 := by simp [Send.new]
    rw [hstart]
    split
    · omega
    · rfl

/-- C9 witness: after two successful opens (ids 1 and 3), id 3 is not idle,
while id 5 would be rejected. -/
theorem ensure_not_idle_iff_ge_next_witness :
    ((Send.new false ⟨65535⟩).runOpens [⟨0, 5⟩, ⟨1, 5⟩]).2.ensure_not_idle 3
      = .ok () :=
  (ensure_not_idle_iff_ge_next (Send.new false ⟨65535⟩) 0 ⟨65535⟩
    [⟨0, 5⟩, ⟨1, 5⟩]).2.2 3 (by decide)

/-- C10: for a server-role manager, `open` fails with `UnexpectedFrameType`
before the budget is consulted: the outcome is independent of the counts
state (identical for any two counts values) and the counts are returned
unmodified, so an exhausted budget still yields `UnexpectedFrameType`, never
`Rejected`. -/
theorem open_server_role_check_first (s : Send) (h : s.is_server = true)
    (c c' : Counts) :
    s.«open» c = (.error .UnexpectedFrameType, s, c)
    ∧ (s.«open» c).1 = (s.«open» c').1 := by
  unfold Send.«open» Send.ensure_can_open
  simp [h]

/-- C10 witness: a server-role manager with an exhausted budget still gets
`UnexpectedFrameType`, not `Rejected`, with the counts untouched. -/
theorem open_server_role_check_first_witness :
    (Send.new true ⟨65535⟩).«open» ⟨5, 5⟩
        = (.error .UnexpectedFrameType, Send.new true ⟨65535⟩, ⟨5, 5⟩)
    ∧ ((Send.new true ⟨65535⟩).«open» ⟨5, 5⟩).1
        = ((Send.new true ⟨65535⟩).«open» ⟨0, 5⟩).1 :=
  open_server_role_check_first (Send.new true ⟨65535⟩) (by decide) ⟨5, 5⟩ ⟨0, 5⟩

/-- An arithmetic progression of step 2 steps by exactly 2 between
neighbours. -/
theorem chain'_range'_step_two (k a : Nat) :
    List.Chain' (fun x y => y = x + 2) (List.range' a k 2) := by
  induction k generalizing a with
  | zero => simp
  | succ k ih =>
    rw [List.range'_succ]
    cases k with
    | zero => simp
    | succ m =>
      rw [List.range'_succ]
      exact List.Chain'.cons rfl (by rw [← List.range'_succ]; exact ih (a + 2))

/-- A server-role manager never issues any id: every `open` in the run
fails. -/
theorem opensIds_server (cs : List Counts) (s : Send) (h : s.is_server = true) :
    opensIds s cs = [] := by
  induction cs generalizing s with
  | nil => simp [opensIds, Send.runOpens]
  | cons c cs ih =>
    have he : s.«open» c = (.error .UnexpectedFrameType, s, c) := by
      unfold Send.«open» Send.ensure_can_open
      simp [h]
    have hrun : s.runOpens (c :: cs)
        = (none :: (s.runOpens cs).1, (s.runOpens cs).2) := by
      simp [Send.runOpens, he]
    have := ih s h
    simp only [opensIds, hrun, List.filterMap_cons] at this ⊢
    exact this

/-- C3: over any sequence of `open` calls on one manager, the successful ids
form the arithmetic progression of step 2 from the initial id (1 for a
client role, 2 for a server role, though a server-role manager never issues
any), hence they strictly increase, keep their parity, and are never
repeated; `next_stream_id` advances by 2 per success only. -/
theorem open_ids_strictly_increasing_step_two (cfg : Config)
    (cs : List Counts) :
    opensIds (Send.new false cfg) cs
        = List.range' 1 (opensIds (Send.new false cfg) cs).length 2
    ∧ List.Pairwise (· < ·) (opensIds (Send.new false cfg) cs)
    ∧ (opensIds (Send.new false cfg) cs).Nodup
    ∧ List.Chain' (fun x y => y = x + 2) (opensIds (Send.new false cfg) cs)
    ∧ (∀ n ∈ opensIds (Send.new false cfg) cs, n % 2 = 1)
    ∧ ((Send.new false cfg).runOpens cs).2.next_stream_id
        = 1 + 2 * (opensIds (Send.new false cfg) cs).length
    ∧ (Send.new true cfg).next_stream_id = 2
    ∧ opensIds (Send.new true cfg) cs = [] := by
  obtain ⟨h1, h2⟩ := runOpens_spec cs (Send.new false cfg)
  have hstart : (Send.new false cfg).next_stream_id = 1 := by simp [Send.new]
  rw [hstart] at h1 h2
  refine ⟨h1, ?_, ?_, ?_, ?_, h2, by simp [Send.new], opensIds_server cs _ rfl⟩
  · rw [h1]
    exact List.pairwise_lt_range' _ _ 2 (by decide)
  · rw [h1]
    exact List.nodup_range' _ _ 2 (by decide)
  · rw [h1]
    exact chain'_range'_step_two _ 1
  · intro n hn
    rw [h1] at hn
    obtain ⟨i, _, rfl⟩ := List.mem_range'.1 hn
    omega

/-- C3 witness: with budget for the first call, a rejected second call and
budget again for the third, the issued ids are exactly 1 and 3, and 3 is
odd. -/
theorem open_ids_strictly_increasing_step_two_witness :
    opensIds (Send.new false ⟨65535⟩) [⟨0, 2⟩, ⟨5, 5⟩, ⟨1, 2⟩] = [1, 3]
    ∧ (3 : Nat) % 2 = 1 :=
  ⟨by decide,
    (open_ids_strictly_increasing_step_two ⟨65535⟩
      [⟨0, 2⟩, ⟨5, 5⟩, ⟨1, 2⟩]).2.2.2.2.1 3 (by decide)⟩

/-- C7: `poll_capacity` returns `Ready(None)` once the stream is no longer
send-streaming, `NotReady` while the dirty flag is unset, and otherwise
clears the flag and returns the computed capacity; consequently two
consecutive polls with no intervening capacity increase never both return
`Ready(Some _)`. -/
theorem poll_capacity_single_shot (self : Send) (stream : Stream) :
    (stream.state.is_send_streaming = false →
      self.poll_capacity stream = (.ReadyNone, stream))
    ∧ (stream.state.is_send_streaming = true →
        stream.send_capacity_inc = false →
      self.poll_capacity stream = (.NotReady, stream))
    ∧ (stream.state.is_send_streaming = true →
        stream.send_capacity_inc = true →
      self.poll_capacity stream
        = (.ReadySome (self.capacity { stream with send_capacity_inc := false }),
           { stream with send_capacity_inc := false }))
    ∧ (∀ w w', (self.poll_capacity stream).1 = .ReadySome w →
        (self.poll_capacity (self.poll_capacity stream).2).1 ≠ .ReadySome w') := by
  unfold Send.poll_capacity
  by_cases h1 : stream.state.is_send_streaming
  · by_cases h2 : stream.send_capacity_inc
    · simp [h1, h2]
    · simp [h1, h2]
  · simp [h1]

/-- C7 witness: polling the sample streaming stream with the dirty flag set
yields its capacity once; the immediately following poll does not yield a
second `Ready(Some _)`. -/
theorem poll_capacity_single_shot_witness :
    (Send.new false ⟨65535⟩).poll_capacity sampleStream
      = (.ReadySome ((Send.new false ⟨65535⟩).capacity
            { sampleStream with send_capacity_inc := false }),
         { sampleStream with send_capacity_inc := false })
    ∧ ((Send.new false ⟨65535⟩).poll_capacity
        ((Send.new false ⟨65535⟩).poll_capacity sampleStream).2).1
      ≠ PollCapacity.ReadySome 60 :=
  ⟨(poll_capacity_single_shot (Send.new false ⟨65535⟩) sampleStream).2.2.1
      rfl rfl,
    (poll_capacity_single_shot (Send.new false ⟨65535⟩) sampleStream).2.2.2
      60 60 (by simp [Send.poll_capacity, Send.capacity, sampleStream,
        FlowControl.available, StreamState.is_send_streaming])⟩

/-- C8: `send_trailers` fails with `UnexpectedFrameType`, touching nothing,
unless the stream is actively send-streaming; on success it closes the send
half, queues the trailers frame, then reserves 0 capacity, in that order. -/
theorem send_trailers_requires_streaming (self : Send) (frame : Frame)
    (stream : Stream) :
    (stream.state.is_send_streaming = false →
      self.send_trailers frame stream
        = (.error .UnexpectedFrameType, stream, []))
    ∧ (stream.state.is_send_streaming = true →
      self.send_trailers frame stream
        = (.ok (),
           { stream with state := stream.state.send_close,
                         pending_send := stream.pending_send ++ [frame] },
           [.QueueFrame frame, .ReserveCapacity stream.id 0])
      ∧ StreamState.is_send_streaming (stream.state.send_close) = false) := by
  unfold Send.send_trailers Prioritize.queue_frame Prioritize.reserve_capacity
  by_cases h : stream.state.is_send_streaming
  · simp [h, StreamState.send_close, StreamState.is_send_streaming]
  · simp [h]

/-- C8 witness: trailers on the streaming sample stream succeed, close the
send half, queue the frame and release reserved capacity. -/
theorem send_trailers_requires_streaming_witness :
    (Send.new false ⟨65535⟩).send_trailers (.Headers true) sampleStream
      = (.ok (),
         { sampleStream with
             state := sampleStream.state.send_close,
             pending_send := sampleStream.pending_send ++ [.Headers true] },
         [.QueueFrame (.Headers true), .ReserveCapacity sampleStream.id 0]) :=
  ((send_trailers_requires_streaming (Send.new false ⟨65535⟩) (.Headers true)
      sampleStream).2 rfl).1

/-- A `send_reset` call no-ops on an already-reset stream. -/
theorem send_reset_noop_reset (self : Send) (reason : Reason) (stream : Stream)
    (h : stream.state.is_reset = true) :
    self.send_reset reason stream = (stream, []) := by
  unfold Send.send_reset
  simp [h]

/-- A `send_reset` call no-ops on a closed stream whose send queue is empty. -/
theorem send_reset_noop_closed (self : Send) (reason : Reason) (stream : Stream)
    (h1 : stream.state.is_reset = false) (h2 : stream.state.is_closed = true)
    (h3 : stream.pending_send = []) :
    self.send_reset reason stream = (stream, []) := by
  unfold Send.send_reset
  simp [h1, h2, h3]

/-- In every other case `send_reset` marks the stream reset, clears its queue,
claims the remaining credit, queues RST_STREAM and reassigns the credit, in
that order. -/
theorem send_reset_effective (self : Send) (reason : Reason) (stream : Stream)
    (h1 : stream.state.is_reset = false)
    (h2 : stream.state.is_closed = false ∨ stream.pending_send ≠ []) :
    self.send_reset reason stream
      = ({ stream with
             state := .ResetSt reason,
             send_flow := ⟨0⟩,
             pending_send := [.Reset stream.id reason] },
         [.ClearQueue stream.id,
          .ClaimCapacity stream.id stream.send_flow.available,
          .QueueFrame (.Reset stream.id reason),
          .AssignConnCapacity stream.send_flow.available]) := by
  have hguard : (stream.state.is_closed && stream.pending_send.isEmpty) = false := by
    rcases h2 with h | h
    · simp [h]
    · have hempty : stream.pending_send.isEmpty = false :=
        Bool.eq_false_iff.2 (fun hh => h (List.isEmpty_iff.1 hh))
      simp [hempty]
  unfold Send.send_reset Prioritize.clear_queue Prioritize.queue_frame
    Prioritize.assign_connection_capacity
  simp [h1, hguard, StreamState.set_reset, FlowControl.claim_capacity,
    FlowControl.available, sub_self]

/-- C5: `send_reset` is a no-op on an already-reset stream and on a closed
stream with an empty queue; otherwise it marks the stream reset, clears its
queue, claims its entire remaining credit, queues RST_STREAM, then reassigns
the credit to the connection, in that order; a repeated call changes nothing
further. -/
theorem send_reset_idempotent_guarded (self : Send) (reason reason2 : Reason)
    (stream : Stream) :
    (stream.state.is_reset = true → self.send_reset reason stream = (stream, []))
    ∧ (stream.state.is_closed = true → stream.pending_send = [] →
        self.send_reset reason stream = (stream, []))
    ∧ (stream.state.is_reset = false →
       (stream.state.is_closed = false ∨ stream.pending_send ≠ []) →
        self.send_reset reason stream
          = ({ stream with
                 state := .ResetSt reason,
                 send_flow := ⟨0⟩,
                 pending_send := [.Reset stream.id reason] },
             [.ClearQueue stream.id,
              .ClaimCapacity stream.id stream.send_flow.available,
              .QueueFrame (.Reset stream.id reason),
              .AssignConnCapacity stream.send_flow.available]))
    ∧ self.send_reset reason2 (self.send_reset reason stream).1
        = ((self.send_reset reason stream).1, []) := by
  refine ⟨send_reset_noop_reset self reason stream, ?_,
    send_reset_effective self reason stream, ?_⟩
  · intro h2 h3
    have h1 : stream.state.is_reset = false := by
      cases hs : stream.state <;>
        simp_all [StreamState.is_closed, StreamState.is_reset]
    exact send_reset_noop_closed self reason stream h1 h2 h3
  · by_cases h1 : stream.state.is_reset = true
    · rw [send_reset_noop_reset self reason stream h1]
      exact send_reset_noop_reset self reason2 stream h1
    · have h1' : stream.state.is_reset = false := by
        simpa using h1
      by_cases h2 : stream.state.is_closed = true ∧ stream.pending_send = []
      · rw [send_reset_noop_closed self reason stream h1' h2.1 h2.2]
        exact send_reset_noop_closed self reason2 stream h1' h2.1 h2.2
      · have h2' : stream.state.is_closed = false ∨ stream.pending_send ≠ [] := by
          rcases Bool.eq_false_or_eq_true stream.state.is_closed with hc | hc
          · exact Or.inr (fun hp => h2 ⟨hc, hp⟩)
          · exact Or.inl hc
        rw [send_reset_effective self reason stream h1' h2']
        exact send_reset_noop_reset self reason2 _ rfl

/-- C5 witness: resetting the streaming sample stream queues exactly one
RST_STREAM after clearing the queue and reclaims its full credit; resetting
again is a no-op. -/
theorem send_reset_idempotent_guarded_witness :
    (Send.new false ⟨65535⟩).send_reset .Cancel sampleStream
      = ({ sampleStream with
             state := .ResetSt .Cancel,
             send_flow := ⟨0⟩,
             pending_send := [.Reset sampleStream.id .Cancel] },
         [.ClearQueue sampleStream.id,
          .ClaimCapacity sampleStream.id sampleStream.send_flow.available,
          .QueueFrame (.Reset sampleStream.id .Cancel),
          .AssignConnCapacity sampleStream.send_flow.available]) :=
  (send_reset_idempotent_guarded (Send.new false ⟨65535⟩) .Cancel .Cancel
      sampleStream).2.2.1 rfl (Or.inl rfl)

/-- Unfolding equation for `Store.for_each` at a cons cell, with the
scrutinee exposed. -/
theorem for_each_cons (f : Stream → Stream × List Event × Option RecvError)
    (s : Stream) (rest : List Stream) :
    Store.for_each f (s :: rest)
      = match (f s).2.2 with
        | some e => ((f s).1 :: rest, (f s).2.1, some e)
        | none => ((f s).1 :: (Store.for_each f rest).1,
                   (f s).2.1 ++ (Store.for_each f rest).2.1,
                   (Store.for_each f rest).2.2) := rfl

/-- The whole-store sweep of a window decrement maps every stream, emits no
event and reports no error. -/
theorem for_each_dec (d : Int) (store : List Stream) :
    Store.for_each
        (fun s => ({ s with send_flow := s.send_flow.dec_window d }, [], none))
        store
      = (store.map (fun s => { s with send_flow := s.send_flow.dec_window d }),
         [], none) := by
  induction store with
  | nil => rfl
  | cons s rest ih =>
    rw [for_each_cons, ih]
    rfl

/-- If the per-stream body only ever reports connection-level errors, so does
the whole sweep. -/
theorem for_each_connection_err
    (f : Stream → Stream × List Event × Option RecvError)
    (hf : ∀ st e, (f st).2.2 = some e → ∃ r, e = RecvError.Connection r)
    (store : List Stream) :
    ∀ e, (Store.for_each f store).2.2 = some e →
      ∃ r, e = RecvError.Connection r := by
  induction store with
  | nil =>
    intro e h
    simp [Store.for_each] at h
  | cons s rest ih =>
    intro e h
    rw [for_each_cons] at h
    rcases hfs : (f s).2.2 with _ | e'
    · rw [hfs] at h
      simp only at h
      exact ih e h
    · rw [hfs] at h
      simp only at h
      exact hf s e (hfs.trans h)

/-- C2: applying remote settings whose initial-window value shrank updates
`init_window_sz` unconditionally and decrements every tracked stream's send
window by exactly `dec = old - new` with plain integer subtraction (so the
window goes negative when `dec` exceeds it), queues no frame and reports no
error. -/
theorem apply_remote_settings_shrink_no_clamp (self : Send) (val : Nat)
    (store : List Stream) (h : val < self.init_window_sz) :
    (self.apply_remote_settings (some val) store).1.init_window_sz = val
    ∧ (self.apply_remote_settings (some val) store).2.1
        = store.map (fun st =>
            { st with send_flow :=
                ⟨st.send_flow.window
                  - ((self.init_window_sz - val : Nat) : Int)⟩ })
    ∧ (self.apply_remote_settings (some val) store).2.2.1 = []
    ∧ (self.apply_remote_settings (some val) store).2.2.2 = none := by
  simp only [Send.apply_remote_settings]
  rw [if_pos h, for_each_dec]
  simp [FlowControl.dec_window]

/-- C2 witness: old window 200 shrunk to 50 drives the sample stream's window
of 100 down to -50 (not 0), with no frame queued. -/
theorem apply_remote_settings_shrink_no_clamp_witness :
    ((⟨false, 3, 200⟩ : Send).apply_remote_settings (some 50) [sampleStream]).2.1
      = [{ sampleStream with send_flow := ⟨-50⟩ }]
    ∧ ((⟨false, 3, 200⟩ : Send).apply_remote_settings
        (some 50) [sampleStream]).2.2.1 = [] := by
  have h := apply_remote_settings_shrink_no_clamp ⟨false, 3, 200⟩ 50
    [sampleStream] (by decide)
  refine ⟨?_, h.2.2.1⟩
  rw [h.2.1]
  norm_num [sampleStream]

/-- C6: `recv_stream_window_update` succeeds exactly when the collaborator
accepts the increment; on a flow-control error the stream is reset with
`FlowControlError` (via `send_reset`) before the same error is returned; and
`apply_remote_settings` with a grown initial window runs this very code path
with increment `new - old` on every tracked stream, surfacing any violation
as a connection-level error. -/
theorem recv_stream_window_update_resets_on_error (self : Send) (sz : Int)
    (stream : Stream) (val : Nat) (store : List Stream) :
    (∀ stream', Prioritize.recv_stream_window_update sz stream = .ok stream' →
        self.recv_stream_window_update sz stream = (.ok (), stream', []))
    ∧ (∀ e, Prioritize.recv_stream_window_update sz stream = .error e →
        self.recv_stream_window_update sz stream
          = (.error e, self.send_reset .FlowControlError stream))
    ∧ (∀ e, Prioritize.recv_stream_window_update sz stream = .error e →
        stream.state.is_reset = false →
        (stream.state.is_closed = false ∨ stream.pending_send ≠ []) →
        (self.recv_stream_window_update sz stream).2.1.state
          = .ResetSt .FlowControlError)
    ∧ (self.init_window_sz < val →
        self.apply_remote_settings (some val) store
          = ({ self with init_window_sz := val },
             Store.for_each
               (fun s =>
                 let u := Send.recv_stream_window_update
                     { self with init_window_sz := val }
                     ((val - self.init_window_sz : Nat) : Int) s
                 match u.1 with
                 | .error e => (u.2.1, u.2.2, some (RecvError.Connection e))
                 | .ok _ => (u.2.1, u.2.2, none))
               store))
    ∧ (∀ e, (self.apply_remote_settings (some val) store).2.2.2 = some e →
        ∃ r, e = RecvError.Connection r) := by
  refine ⟨?_, ?_, ?_, ?_, ?_⟩
  · intro stream' hok
    unfold Send.recv_stream_window_update
    rw [hok]
  · intro e herr
    unfold Send.recv_stream_window_update
    rw [herr]
  · intro e herr h1 h2
    unfold Send.recv_stream_window_update
    rw [herr]
    simp only
    rw [send_reset_effective self .FlowControlError stream h1 h2]
  · intro hlt
    simp only [Send.apply_remote_settings]
    rw [if_neg (by omega), if_pos hlt]
  · intro e he
    rcases lt_trichotomy val self.init_window_sz with h | h | h
    · simp only [Send.apply_remote_settings] at he
      rw [if_pos h, for_each_dec] at he
      simp at he
    · simp only [Send.apply_remote_settings] at he
      rw [if_neg (by omega), if_neg (by omega)] at he
      simp at he
    · simp only [Send.apply_remote_settings] at he
      rw [if_neg (by omega), if_pos h] at he
      refine for_each_connection_err _ ?_ store e he
      intro st e' hst
      simp only at hst
      rcases hu : (Send.recv_stream_window_update
          { self with init_window_sz := val }
          (((val - self.init_window_sz : Nat)) : Int) st).1 with e'' | u
      · rw [hu] at hst
        simp only at hst
        exact ⟨e'', (Option.some.inj hst).symm⟩
      · rw [hu] at hst
        simp at hst

/-- C6 witness: incrementing a stream already at the maximum window fails with
`FlowControlError` and leaves the stream reset with that reason, via the
`send_reset` path. -/
theorem recv_stream_window_update_resets_on_error_witness :
    (Send.new false ⟨65535⟩).recv_stream_window_update 1 overflowStream
      = (.error .FlowControlError,
         (Send.new false ⟨65535⟩).send_reset .FlowControlError overflowStream)
    ∧ ((Send.new false ⟨65535⟩).recv_stream_window_update 1
        overflowStream).2.1.state = .ResetSt .FlowControlError :=
  ⟨(recv_stream_window_update_resets_on_error (Send.new false ⟨65535⟩) 1
        overflowStream 0 []).2.1 .FlowControlError rfl,
    (recv_stream_window_update_resets_on_error (Send.new false ⟨65535⟩) 1
        overflowStream 0 []).2.2.1 .FlowControlError rfl rfl (Or.inl rfl)⟩

end H2Send
